import Mathlib

/-!
Verification of the `keylib` key-derivation pipeline: a shallow embedding of
`src/keylib.py` (blob codec, SHA-256 hash chain, AES-128 block cipher, and the
derivation entry points), together with theorems settling the specification's
claims about it.  Bytes are modelled as `Nat` values (the Python code operates
on `bytes`, whose elements are `0..255`); byte strings are `List Nat`; text is
`List Char`; raised `ValueError`s become an explicit error type.
-/

set_option maxRecDepth 100000

namespace Keylib

/-! ### SHA-256 (model of Python's `hashlib.sha256(...).digest()`, FIPS 180-4) -/

namespace Sha256

def M32 : Nat := 4294967296

def rotr (n x : Nat) : Nat := ((x >>> n) ||| (x <<< (32 - n))) % M32

def bsig0 (x : Nat) : Nat := (rotr 2 x) ^^^ (rotr 13 x) ^^^ (rotr 22 x)

def bsig1 (x : Nat) : Nat := (rotr 6 x) ^^^ (rotr 11 x) ^^^ (rotr 25 x)

def ssig0 (x : Nat) : Nat := (rotr 7 x) ^^^ (rotr 18 x) ^^^ (x >>> 3)

def ssig1 (x : Nat) : Nat := (rotr 17 x) ^^^ (rotr 19 x) ^^^ (x >>> 10)

def ch (x y z : Nat) : Nat := (x &&& y) ^^^ ((x ^^^ 4294967295) &&& z)

def maj (x y z : Nat) : Nat := (x &&& y) ^^^ (x &&& z) ^^^ (y &&& z)

def K : List Nat := [
  1116352408, 1899447441, 3049323471, 3921009573, 961987163, 1508970993,
  2453635748, 2870763221, 3624381080, 310598401, 607225278, 1426881987,
  1925078388, 2162078206, 2614888103, 3248222580, 3835390401, 4022224774,
  264347078, 604807628, 770255983, 1249150122, 1555081692, 1996064986,
  2554220882, 2821834349, 2952996808, 3210313671, 3336571891, 3584528711,
  113926993, 338241895, 666307205, 773529912, 1294757372, 1396182291,
  1695183700, 1986661051, 2177026350, 2456956037, 2730485921, 2820302411,
  3259730800, 3345764771, 3516065817, 3600352804, 4094571909, 275423344,
  430227734, 506948616, 659060556, 883997877, 958139571, 1322822218,
  1537002063, 1747873779, 1955562222, 2024104815, 2227730452, 2361852424,
  2428436474, 2756734187, 3204031479, 3329325298]

def H0 : List Nat := [
  1779033703, 3144134277, 1013904242, 2773480762,
  1359893119, 2600822924, 528734635, 1541459225]

def be64 (n : Nat) : List Nat := (List.range 8).map (fun i => (n >>> (8 * (7 - i))) % 256)

def pad (msg : List Nat) : List Nat :=
  msg ++ 128 :: (List.replicate ((119 - msg.length % 64) % 64) 0 ++ be64 (8 * msg.length))

def initW (block : List Nat) : List Nat :=
  (List.range 16).map (fun i =>
    block.getD (4 * i) 0 * 16777216 + block.getD (4 * i + 1) 0 * 65536 +
      block.getD (4 * i + 2) 0 * 256 + block.getD (4 * i + 3) 0)

def extendW : Nat → List Nat → List Nat
  | 0, w => w
  | n + 1, w =>
      let t := w.length
      extendW n (w ++ [(ssig1 (w.getD (t - 2) 0) + w.getD (t - 7) 0 +
        ssig0 (w.getD (t - 15) 0) + w.getD (t - 16) 0) % M32])

def step (w : List Nat) (st : List Nat) (t : Nat) : List Nat :=
  let a := st.getD 0 0
  let b := st.getD 1 0
  let c := st.getD 2 0
  let d := st.getD 3 0
  let e := st.getD 4 0
  let f := st.getD 5 0
  let g := st.getD 6 0
  let h := st.getD 7 0
  let T1 := (h + bsig1 e + ch e f g + K.getD t 0 + w.getD t 0) % M32
  let T2 := (bsig0 a + maj a b c) % M32
  [(T1 + T2) % M32, a, b, c, (d + T1) % M32, e, f, g]

def compress (h : List Nat) (block : List Nat) : List Nat :=
  let w := extendW 48 (initW block)
  let st := (List.range 64).foldl (step w) h
  List.zipWith (fun x y => (x + y) % M32) h st

def sha256 (msg : List Nat) : List Nat :=
  let p := pad msg
  let h := (List.range (p.length / 64)).foldl
    (fun h i => compress h ((p.drop (64 * i)).take 64)) H0
  (h.map (fun x => [(x >>> 24) % 256, (x >>> 16) % 256, (x >>> 8) % 256, x % 256])).flatten

end Sha256

/-- FIPS 180-4 test vector: SHA-256 of the empty message. -/
theorem sha256_empty_vector :
    Sha256.sha256 [] =
      [0xe3, 0xb0, 0xc4, 0x42, 0x98, 0xfc, 0x1c, 0x14, 0x9a, 0xfb, 0xf4, 0xc8,
       0x99, 0x6f, 0xb9, 0x24, 0x27, 0xae, 0x41, 0xe4, 0x64, 0x9b, 0x93, 0x4c,
       0xa4, 0x95, 0x99, 0x1b, 0x78, 0x52, 0xb8, 0x55] := by decide

/-- FIPS 180-4 test vector: SHA-256 of the three bytes "abc". -/
theorem sha256_abc_vector :
    Sha256.sha256 [0x61, 0x62, 0x63] =
      [0xba, 0x78, 0x16, 0xbf, 0x8f, 0x01, 0xcf, 0xea, 0x41, 0x41, 0x40, 0xde,
       0x5d, 0xae, 0x22, 0x23, 0xb0, 0x03, 0x61, 0xa3, 0x96, 0x17, 0x7a, 0x9c,
       0xb4, 0x10, 0xff, 0x61, 0xf2, 0x00, 0x15, 0xad] := by decide

/-! ### Base64 (model of Python's `base64.b64decode(payload, validate=True)`)

With `validate=True` the input must consist of standard-alphabet characters
followed by at most two `=` padding characters, and the total length must be a
multiple of four; the decoder then converts each group of six-bit values to
bytes, discarding the bits covered by padding. -/

namespace B64

def val (c : Char) : Option Nat :=
  if 'A' ≤ c ∧ c ≤ 'Z' then some (c.toNat - 65)
  else if 'a' ≤ c ∧ c ≤ 'z' then some (c.toNat - 97 + 26)
  else if '0' ≤ c ∧ c ≤ '9' then some (c.toNat - 48 + 52)
  else if c = '+' then some 62
  else if c = '/' then some 63
  else none

/-- Number of trailing `=` padding characters. -/
def padCount (s : List Char) : Nat := (s.reverse.takeWhile (fun c => c = '=')).length

/-- Convert six-bit values to bytes; a trailing group of two or three values
comes from a padded quantum and yields one or two bytes. -/
def toBytes : List Nat → List Nat
  | a :: b :: c :: d :: rest =>
      (a * 4 + b / 16) :: ((b % 16) * 16 + c / 4) :: ((c % 4) * 64 + d) :: toBytes rest
  | [a, b, c] => [a * 4 + b / 16, (b % 16) * 16 + c / 4]
  | [a, b] => [a * 4 + b / 16]
  | _ => []

def decode (s : List Char) : Option (List Nat) :=
  let p := padCount s
  let body := s.take (s.length - p)
  if s.length % 4 ≠ 0 then none
  else if p > 2 then none
  else if body.any (fun c => c = '=') then none
  else match body.mapM val with
    | none => none
    | some vs => some (toBytes vs)

end B64

/-! ### The `keylib` module itself -/

def SBOX : List Nat := [
  0x63, 0x7C, 0x77, 0x7B, 0xF2, 0x6B, 0x6F, 0xC5,
  0x30, 0x01, 0x67, 0x2B, 0xFE, 0xD7, 0xAB, 0x76,
  0xCA, 0x82, 0xC9, 0x7D, 0xFA, 0x59, 0x47, 0xF0,
  0xAD, 0xD4, 0xA2, 0xAF, 0x9C, 0xA4, 0x72, 0xC0,
  0xB7, 0xFD, 0x93, 0x26, 0x36, 0x3F, 0xF7, 0xCC,
  0x34, 0xA5, 0xE5, 0xF1, 0x71, 0xD8, 0x31, 0x15,
  0x04, 0xC7, 0x23, 0xC3, 0x18, 0x96, 0x05, 0x9A,
  0x07, 0x12, 0x80, 0xE2, 0xEB, 0x27, 0xB2, 0x75,
  0x09, 0x83, 0x2C, 0x1A, 0x1B, 0x6E, 0x5A, 0xA0,
  0x52, 0x3B, 0xD6, 0xB3, 0x29, 0xE3, 0x2F, 0x84,
  0x53, 0xD1, 0x00, 0xED, 0x20, 0xFC, 0xB1, 0x5B,
  0x6A, 0xCB, 0xBE, 0x39, 0x4A, 0x4C, 0x58, 0xCF,
  0xD0, 0xEF, 0xAA, 0xFB, 0x43, 0x4D, 0x33, 0x85,
  0x45, 0xF9, 0x02, 0x7F, 0x50, 0x3C, 0x9F, 0xA8,
  0x51, 0xA3, 0x40, 0x8F, 0x92, 0x9D, 0x38, 0xF5,
  0xBC, 0xB6, 0xDA, 0x21, 0x10, 0xFF, 0xF3, 0xD2,
  0xCD, 0x0C, 0x13, 0xEC, 0x5F, 0x97, 0x44, 0x17,
  0xC4, 0xA7, 0x7E, 0x3D, 0x64, 0x5D, 0x19, 0x73,
  0x60, 0x81, 0x4F, 0xDC, 0x22, 0x2A, 0x90, 0x88,
  0x46, 0xEE, 0xB8, 0x14, 0xDE, 0x5E, 0x0B, 0xDB,
  0xE0, 0x32, 0x3A, 0x0A, 0x49, 0x06, 0x24, 0x5C,
  0xC2, 0xD3, 0xAC, 0x62, 0x91, 0x95, 0xE4, 0x79,
  0xE7, 0xC8, 0x37, 0x6D, 0x8D, 0xD5, 0x4E, 0xA9,
  0x6C, 0x56, 0xF4, 0xEA, 0x65, 0x7A, 0xAE, 0x08,
  0xBA, 0x78, 0x25, 0x2E, 0x1C, 0xA6, 0xB4, 0xC6,
  0xE8, 0xDD, 0x74, 0x1F, 0x4B, 0xBD, 0x8B, 0x8A,
  0x70, 0x3E, 0xB5, 0x66, 0x48, 0x03, 0xF6, 0x0E,
  0x61, 0x35, 0x57, 0xB9, 0x86, 0xC1, 0x1D, 0x9E,
  0xE1, 0xF8, 0x98, 0x11, 0x69, 0xD9, 0x8E, 0x94,
  0x9B, 0x1E, 0x87, 0xE9, 0xCE, 0x55, 0x28, 0xDF,
  0x8C, 0xA1, 0x89, 0x0D, 0xBF, 0xE6, 0x42, 0x68,
  0x41, 0x99, 0x2D, 0x0F, 0xB0, 0x54, 0xBB, 0x16]

def RCON : List Nat := [0x00, 0x01, 0x02, 0x04, 0x08, 0x10, 0x20, 0x40, 0x80, 0x1B, 0x36]

structure PasswordRecord where
  secret : List Nat
  min_seed : Nat
  algo_id : Nat
deriving DecidableEq, Repr

/-- The distinct `ValueError` conditions raised by `keylib`. -/
inductive KeyError where
  | blobTooShort
  | unsupportedPrefix
  | payloadLengthInvalid
  | base64Invalid
  | decodedLengthInvalid
  | authenticityError
  | algorithmMismatch
  | invalidSeedLength
  | seedRejected
  | unknownAlgorithm
  | invalidKeyLength
  | invalidBlockLength
deriving DecidableEq, Repr

instance {ε α : Type} [DecidableEq ε] [DecidableEq α] : DecidableEq (Except ε α) := fun a b =>
  match a, b with
  | .error x, .error y =>
      if h : x = y then .isTrue (by rw [h]) else .isFalse (by intro hh; cases hh; exact h rfl)
  | .ok x, .ok y =>
      if h : x = y then .isTrue (by rw [h]) else .isFalse (by intro hh; cases hh; exact h rfl)
  | .error _, .ok _ => .isFalse (by intro h; cases h)
  | .ok _, .error _ => .isFalse (by intro h; cases h)

/-- `parse_password_blob`: validate and unpack a 62-char blob. -/
def parse_password_blob (blob : List Char) : Except KeyError PasswordRecord :=
  if blob.length < 62 then .error .blobTooShort
  else
    let pfx := blob.take 2
    if ¬ (pfx = ['0', '1'] ∨ pfx = ['0', '3']) then .error .unsupportedPrefix
    else
      let payload := blob.drop 2
      if payload.length ≠ 60 then .error .payloadLengthInvalid
      else match B64.decode payload with
        | none => .error .base64Invalid
        | some raw =>
          if raw.length ≠ 44 then .error .decodedLengthInvalid
          else
            let secret := raw.take 32
            let min_seed := raw.getD 32 0 * 256 + raw.getD 33 0
            let algo_id := raw.getD 34 0 * 256 + raw.getD 35 0
            let digest := (Sha256.sha256 (raw.take 36)).take 8
            if digest ≠ raw.drop 36 then .error .authenticityError
            else .ok ⟨secret, min_seed, algo_id⟩

/-- `bytes_to_state`: 16 bytes to the 4x4 AES state, column-major. -/
def bytes_to_state (block : List Nat) : List (List Nat) :=
  (List.range 4).map (fun row => (List.range 4).map (fun col => block.getD (row + 4 * col) 0))

/-- `state_to_bytes`: collapse the state matrix back to 16 bytes. -/
def state_to_bytes (state : List (List Nat)) : List Nat :=
  (List.range 16).map (fun k => (state.getD (k % 4) []).getD (k / 4) 0)

def sub_bytes (state : List (List Nat)) : List (List Nat) :=
  state.map (List.map (fun b => SBOX.getD b 0))

def shift_rows (state : List (List Nat)) : List (List Nat) :=
  List.zipWith (fun r row => row.drop r ++ row.take r) (List.range 4) state

def xtime (value : Nat) : Nat :=
  let v := value <<< 1
  if v &&& 0x100 ≠ 0 then (v ^^^ 0x11B) &&& 0xFF else v &&& 0xFF

def gf_mulGo : Nat → Nat → Nat → Nat → Nat
  | 0, _, _, result => result
  | n + 1, a, b, result =>
      gf_mulGo n (xtime a) (b >>> 1) (if b &&& 1 = 1 then result ^^^ a else result)

def gf_mul (a b : Nat) : Nat := gf_mulGo 8 a b 0

def mix_single_column (col : List Nat) : List Nat :=
  let a0 := col.getD 0 0
  let a1 := col.getD 1 0
  let a2 := col.getD 2 0
  let a3 := col.getD 3 0
  [gf_mul a0 2 ^^^ gf_mul a1 3 ^^^ a2 ^^^ a3,
   a0 ^^^ gf_mul a1 2 ^^^ gf_mul a2 3 ^^^ a3,
   a0 ^^^ a1 ^^^ gf_mul a2 2 ^^^ gf_mul a3 3,
   gf_mul a0 3 ^^^ a1 ^^^ a2 ^^^ gf_mul a3 2]

def mix_columns (state : List (List Nat)) : List (List Nat) :=
  (List.range 4).map (fun row => (List.range 4).map (fun col =>
    (mix_single_column ((List.range 4).map (fun r => (state.getD r []).getD col 0))).getD row 0))

def add_round_key (state : List (List Nat)) (round_key : List Nat) : List (List Nat) :=
  (List.range 4).map (fun row => (List.range 4).map (fun col =>
    ((state.getD row []).getD col 0) ^^^ round_key.getD (row + 4 * col) 0))

def rot_word (word : List Nat) : List Nat := word.drop 1 ++ word.take 1

def sub_word (word : List Nat) : List Nat := word.map (fun b => SBOX.getD b 0)

/-- One step of the key-expansion loop: append word `i` given words `0..i-1`. -/
def nextWord (words : List (List Nat)) : List (List Nat) :=
  let i := words.length
  let temp0 := words.getD (i - 1) []
  let temp :=
    if i % 4 = 0 then
      match sub_word (rot_word temp0) with
      | t0 :: rest => (t0 ^^^ RCON.getD (i / 4) 0) :: rest
      | [] => []
    else temp0
  words ++ [(List.range 4).map (fun j => ((words.getD (i - 4) []).getD j 0 ^^^ temp.getD j 0) &&& 0xFF)]

def expandWordsN : Nat → List (List Nat) → List (List Nat)
  | 0, ws => ws
  | n + 1, ws => expandWordsN n (nextWord ws)

/-- The 11 round keys, as computed by `expand_key` after its length check. -/
def expandKeyCore (key : List Nat) : List (List Nat) :=
  let words := expandWordsN 40 ((List.range 4).map (fun i => (key.drop (4 * i)).take 4))
  (List.range 11).map (fun i => ((words.drop (4 * i)).take 4).flatten)

/-- `expand_key`: derive the 11 round keys, rejecting non-16-byte keys. -/
def expand_key (key : List Nat) : Except KeyError (List (List Nat)) :=
  if key.length ≠ 16 then .error .invalidKeyLength else .ok (expandKeyCore key)

/-- The round structure of `aes_encrypt_block` after its checks. -/
def encryptCore (round_keys : List (List Nat)) (block : List Nat) : List Nat :=
  let state0 := add_round_key (bytes_to_state block) (round_keys.getD 0 [])
  let state9 := (List.range' 1 9).foldl (fun st rnd =>
    add_round_key (mix_columns (shift_rows (sub_bytes st))) (round_keys.getD rnd [])) state0
  state_to_bytes (add_round_key (shift_rows (sub_bytes state9)) (round_keys.getD 10 []))

/-- `aes_encrypt_block`: single-block AES-128 encryption. -/
def aes_encrypt_block (key block : List Nat) : Except KeyError (List Nat) :=
  if block.length ≠ 16 then .error .invalidBlockLength
  else match expand_key key with
    | .error e => .error e
    | .ok round_keys => .ok (encryptCore round_keys block)

/-- `run_hash_chain`: repeat SHA-256 `iterations` times starting from `secret`. -/
def run_hash_chain (secret : List Nat) : Nat → List Nat
  | 0 => secret
  | n + 1 => Sha256.sha256 (run_hash_chain secret n)

/-- Python slice assignment `l[i:j] = s` on a 16-byte buffer. -/
def sliceAssign (l : List Nat) (i j : Nat) (s : List Nat) : List Nat :=
  l.take i ++ s ++ l.drop j

/-- `derive_key_from_blob`: derive the 5-byte MAC from a blob and seed. -/
def derive_key_from_blob (blob : List Char) (seed : List Nat) (algo : Nat) :
    Except KeyError (List Nat × Nat × List Nat) :=
  match parse_password_blob blob with
  | .error e => .error e
  | .ok record =>
    if algo ≠ record.algo_id then .error .algorithmMismatch
    else if seed.length ≠ 5 then .error .invalidSeedLength
    else
      let seed_tail := seed.getD 4 0
      let max_seed : Int := 255 - seed_tail
      if (record.min_seed : Int) > max_seed then .error .seedRejected
      else
        let iterations := (max_seed - record.min_seed).toNat
        let digest := run_hash_chain record.secret iterations
        let aes_key := digest.take 16
        let block := sliceAssign (List.replicate 16 0xFF) 11 16 seed
        match aes_encrypt_block aes_key block with
        | .error e => .error e
        | .ok ct => .ok (ct.take 5, iterations, aes_key)

/-- `derive_key_from_algo`: look up the blob for `algo` in the registry and
derive; `if not blob` in the source rejects both a missing entry and an empty
registered string. -/
def derive_key_from_algo (algo : Nat) (seed : List Nat)
    (password_map : List (Nat × List Char)) : Except KeyError (List Nat × Nat × List Nat) :=
  match password_map.lookup algo with
  | none => .error .unknownAlgorithm
  | some blob => if blob = [] then .error .unknownAlgorithm else derive_key_from_blob blob seed algo

/-! ### Helper lemmas -/

lemma step_length (w st : List Nat) (t : Nat) : (Sha256.step w st t).length = 8 := rfl

lemma foldl_step_length (w : List Nat) (l : List Nat) :
    ∀ st : List Nat, st.length = 8 → (l.foldl (Sha256.step w) st).length = 8 := by
  induction l with
  | nil => intro st h; exact h
  | cons t rest ih => intro st _; exact ih _ (step_length w st t)

lemma compress_length (h b : List Nat) (h8 : h.length = 8) :
    (Sha256.compress h b).length = 8 := by
  unfold Sha256.compress
  rw [List.length_zipWith, foldl_step_length _ _ _ h8, h8]
  rfl

lemma foldl_compress_length (g : Nat → List Nat) (l : List Nat) :
    ∀ h : List Nat, h.length = 8 →
      ((l.foldl (fun acc i => Sha256.compress acc (g i)) h).length = 8) := by
  induction l with
  | nil => intro h h8; exact h8
  | cons t rest ih => intro h h8; exact ih _ (compress_length _ _ h8)

lemma flatten_wordbytes_length (l : List Nat) :
    ((l.map (fun x =>
      [(x >>> 24) % 256, (x >>> 16) % 256, (x >>> 8) % 256, x % 256])).flatten).length =
      4 * l.length := by
  induction l with
  | nil => rfl
  | cons x rest ih => simp only [List.map_cons, List.flatten_cons, List.length_append,
      List.length_cons, List.length_nil, ih]; omega

/-- SHA-256 always produces a 32-byte digest. -/
lemma sha256_length (msg : List Nat) : (Sha256.sha256 msg).length = 32 := by
  unfold Sha256.sha256
  rw [flatten_wordbytes_length, foldl_compress_length _ _ Sha256.H0 rfl]

/-- The hash chain of a 32-byte secret is always 32 bytes long. -/
lemma run_hash_chain_length (s : List Nat) (hs : s.length = 32) :
    ∀ n : Nat, (run_hash_chain s n).length = 32
  | 0 => hs
  | n + 1 => sha256_length (run_hash_chain s n)

/-- Under the length, prefix, Base64 and decoded-length pre-checks,
`parse_password_blob` reduces to the checksum comparison. -/
lemma parse_checked (blob : List Char) (raw : List Nat)
    (hlen : 62 ≤ blob.length)
    (hpfx : blob.take 2 = ['0', '1'] ∨ blob.take 2 = ['0', '3'])
    (hpay : (blob.drop 2).length = 60)
    (hdec : B64.decode (blob.drop 2) = some raw)
    (hraw : raw.length = 44) :
    parse_password_blob blob =
      if (Sha256.sha256 (raw.take 36)).take 8 ≠ raw.drop 36 then .error .authenticityError
      else .ok ⟨raw.take 32, raw.getD 32 0 * 256 + raw.getD 33 0,
                raw.getD 34 0 * 256 + raw.getD 35 0⟩ := by
  unfold parse_password_blob
  rw [if_neg (by omega)]
  rw [if_neg (not_not_intro hpfx)]
  rw [if_neg (not_not_intro hpay)]
  simp only [hdec]
  rw [if_neg (not_not_intro hraw)]

/-- Any error produced by `parse_password_blob` is one of its six own errors. -/
lemma parse_error_cases (blob : List Char) (e : KeyError)
    (h : parse_password_blob blob = .error e) :
    e = .blobTooShort ∨ e = .unsupportedPrefix ∨ e = .payloadLengthInvalid ∨
      e = .base64Invalid ∨ e = .decodedLengthInvalid ∨ e = .authenticityError := by
  unfold parse_password_blob at h
  simp only [] at h
  repeat' split at h
  all_goals first
    | (injection h with h; subst h; tauto)
    | (exact absurd h (by simp))

/-- Inversion for a successful parse: the decoded payload is 44 bytes, the
record is built from it, and the checksum matched. -/
lemma parse_ok_inv (blob : List Char) (record : PasswordRecord)
    (h : parse_password_blob blob = .ok record) :
    ∃ raw : List Nat, raw.length = 44 ∧ B64.decode (blob.drop 2) = some raw ∧
      record = ⟨raw.take 32, raw.getD 32 0 * 256 + raw.getD 33 0,
        raw.getD 34 0 * 256 + raw.getD 35 0⟩ ∧
      (Sha256.sha256 (raw.take 36)).take 8 = raw.drop 36 := by
  unfold parse_password_blob at h
  simp only [] at h
  split at h
  · exact absurd h (by simp)
  split at h
  · exact absurd h (by simp)
  split at h
  · exact absurd h (by simp)
  split at h
  · exact absurd h (by simp)
  next raw hdec =>
    split at h
    · exact absurd h (by simp)
    next h44 =>
      split at h
      · exact absurd h (by simp)
      next htag =>
        injection h with h
        exact ⟨raw, by omega, hdec, h.symm, by tauto⟩

/-- A successfully parsed record carries a 32-byte secret. -/
lemma parse_ok_secret_length (blob : List Char) (record : PasswordRecord)
    (h : parse_password_blob blob = .ok record) : record.secret.length = 32 := by
  obtain ⟨raw, hraw, -, hrec, -⟩ := parse_ok_inv blob record h
  subst hrec
  simp [List.length_take]
  omega

/-- The seed-carrying plaintext block: slice assignment `block[11:16] = seed`
on a buffer of sixteen `0xFF` bytes. -/
lemma block_eq (seed : List Nat) :
    sliceAssign (List.replicate 16 0xFF) 11 16 seed = List.replicate 11 0xFF ++ seed := by
  unfold sliceAssign
  rw [List.take_replicate, List.drop_replicate]
  simp

/-- With a 16-byte key and block, `aes_encrypt_block` succeeds. -/
lemma aes_encrypt_block_ok (key block : List Nat) (hk : key.length = 16)
    (hb : block.length = 16) :
    aes_encrypt_block key block = .ok (encryptCore (expandKeyCore key) block) := by
  unfold aes_encrypt_block expand_key
  rw [if_neg (not_not_intro hb), if_neg (not_not_intro hk)]

/-- `derive_key_from_blob` propagates a parse failure unchanged. -/
lemma derive_parse_error (blob : List Char) (seed : List Nat) (algo : Nat) (e : KeyError)
    (hp : parse_password_blob blob = .error e) :
    derive_key_from_blob blob seed algo = .error e := by
  unfold derive_key_from_blob
  rw [hp]

lemma derive_algo_mismatch (blob : List Char) (seed : List Nat) (algo : Nat)
    (record : PasswordRecord) (hp : parse_password_blob blob = .ok record)
    (ha : algo ≠ record.algo_id) :
    derive_key_from_blob blob seed algo = .error .algorithmMismatch := by
  unfold derive_key_from_blob
  simp only [hp]
  rw [if_pos ha]

lemma derive_bad_seed_length (blob : List Char) (seed : List Nat) (record : PasswordRecord)
    (hp : parse_password_blob blob = .ok record) (hs : seed.length ≠ 5) :
    derive_key_from_blob blob seed record.algo_id = .error .invalidSeedLength := by
  unfold derive_key_from_blob
  simp only [hp]
  rw [if_neg (not_not_intro rfl), if_pos hs]

lemma derive_seed_rejected (blob : List Char) (seed : List Nat) (record : PasswordRecord)
    (hp : parse_password_blob blob = .ok record) (hs5 : seed.length = 5)
    (hm : (record.min_seed : Int) > 255 - (seed.getD 4 0 : Nat)) :
    derive_key_from_blob blob seed record.algo_id = .error .seedRejected := by
  unfold derive_key_from_blob
  simp only [hp]
  rw [if_neg (not_not_intro rfl), if_neg (not_not_intro hs5), if_pos hm]

/-- In the success path, `derive_key_from_blob` returns the truncated AES
ciphertext, the iteration count, and the derived AES key. -/
lemma derive_success (blob : List Char) (seed : List Nat) (record : PasswordRecord)
    (hp : parse_password_blob blob = .ok record)
    (hs5 : seed.length = 5)
    (hsec : record.secret.length = 32)
    (hm : ¬ ((record.min_seed : Int) > 255 - (seed.getD 4 0 : Nat))) :
    derive_key_from_blob blob seed record.algo_id =
      .ok ((encryptCore (expandKeyCore ((run_hash_chain record.secret
              ((255 - (seed.getD 4 0 : Int) - (record.min_seed : Int)).toNat)).take 16))
            (List.replicate 11 0xFF ++ seed)).take 5,
          ((255 - (seed.getD 4 0 : Int) - (record.min_seed : Int)).toNat,
          (run_hash_chain record.secret
              ((255 - (seed.getD 4 0 : Int) - (record.min_seed : Int)).toNat)).take 16)) := by
  have hkey : ((run_hash_chain record.secret
      ((255 - (seed.getD 4 0 : Int) - (record.min_seed : Int)).toNat)).take 16).length = 16 := by
    rw [List.length_take, run_hash_chain_length _ hsec]
    rfl
  have hblock : (List.replicate 11 0xFF ++ seed).length = 16 := by
    simp [hs5]
  unfold derive_key_from_blob
  simp only [hp]
  rw [if_neg (not_not_intro rfl), if_neg (not_not_intro hs5), if_neg hm]
  rw [block_eq]
  rw [aes_encrypt_block_ok _ _ hkey hblock]

/-! ### Concrete data used by witnesses and counterexamples

`blobW` is a well-formed blob (prefix `01`, Base64 payload of 44 bytes with a
valid checksum) whose record is `recW`; `blobF` is the same blob with bit 0 of
checksum byte 36 flipped; `blobX` is `blobW` with one extra character. -/

def blobW : List Char :=
  "01AAECAwQFBgcICQoLDA0ODxAREhMUFRYXGBkaGxwdHh8AAwAHpN8UpBELEdI=".toList

def blobF : List Char :=
  "01AAECAwQFBgcICQoLDA0ODxAREhMUFRYXGBkaGxwdHh8AAwAHpd8UpBELEdI=".toList

def blobX : List Char := blobW ++ ['A']

def rawW : List Nat :=
  [0, 1, 2, 3, 4, 5, 6, 7, 8, 9, 10, 11, 12, 13, 14, 15, 16, 17, 18, 19, 20,
   21, 22, 23, 24, 25, 26, 27, 28, 29, 30, 31, 0, 3, 0, 7, 164, 223, 20, 164,
   17, 11, 17, 210]

def recW : PasswordRecord :=
  ⟨[0, 1, 2, 3, 4, 5, 6, 7, 8, 9, 10, 11, 12, 13, 14, 15, 16, 17, 18, 19, 20,
    21, 22, 23, 24, 25, 26, 27, 28, 29, 30, 31], 3, 7⟩

def seedW : List Nat := [0x11, 0x22, 0x33, 0x44, 0xFC]

def seedR : List Nat := [0x11, 0x22, 0x33, 0x44, 0xFD]

def macW : List Nat := [192, 126, 31, 23, 233]

def keyW : List Nat := [0, 1, 2, 3, 4, 5, 6, 7, 8, 9, 10, 11, 12, 13, 14, 15]

/-! ### The claims -/

/-- C1: for the FIPS-197 reference inputs, `aes_encrypt_block` applied to the
16-byte key `000102030405060708090a0b0c0d0e0f` and the 16-byte plaintext
`00112233445566778899aabbccddeeff` returns exactly the ciphertext
`69c4e0d86a7b0430d8cdb78070b4c55a`. -/
theorem claim_C1_fips_vector :
    aes_encrypt_block
      [0x00, 0x01, 0x02, 0x03, 0x04, 0x05, 0x06, 0x07,
       0x08, 0x09, 0x0a, 0x0b, 0x0c, 0x0d, 0x0e, 0x0f]
      [0x00, 0x11, 0x22, 0x33, 0x44, 0x55, 0x66, 0x77,
       0x88, 0x99, 0xaa, 0xbb, 0xcc, 0xdd, 0xee, 0xff] =
      .ok [0x69, 0xc4, 0xe0, 0xd8, 0x6a, 0x7b, 0x04, 0x30,
           0xd8, 0xcd, 0xb7, 0x80, 0x70, 0xb4, 0xc5, 0x5a] := by decide

/-- C2: for every record and 5-byte seed passing the algorithm and seed
checks, `derive_key_from_blob` hashes `record.secret` `iterations` times,
takes the first 16 digest bytes as the AES key, encrypts the block of eleven
`0xFF` bytes followed by the seed, and returns the first 5 ciphertext bytes as
the MAC together with that iteration count and that key. -/
theorem claim_C2_derive_structure (blob : List Char) (seed : List Nat) (algo : Nat)
    (record : PasswordRecord)
    (hp : parse_password_blob blob = .ok record)
    (ha : algo = record.algo_id)
    (hs5 : seed.length = 5)
    (hm : (record.min_seed : Int) ≤ 255 - (seed.getD 4 0 : Nat)) :
    ∃ ct : List Nat,
      aes_encrypt_block ((run_hash_chain record.secret
          ((255 - (seed.getD 4 0 : Int) - (record.min_seed : Int)).toNat)).take 16)
        (List.replicate 11 0xFF ++ seed) = .ok ct ∧
      derive_key_from_blob blob seed algo =
        .ok (ct.take 5, ((255 - (seed.getD 4 0 : Int) - (record.min_seed : Int)).toNat,
          (run_hash_chain record.secret
            ((255 - (seed.getD 4 0 : Int) - (record.min_seed : Int)).toNat)).take 16)) := by
  subst ha
  have hsec := parse_ok_secret_length _ _ hp
  have hkey : ((run_hash_chain record.secret
      ((255 - (seed.getD 4 0 : Int) - (record.min_seed : Int)).toNat)).take 16).length = 16 := by
    rw [List.length_take, run_hash_chain_length _ hsec]
    rfl
  exact ⟨_, aes_encrypt_block_ok _ _ hkey (by simp [hs5]),
    derive_success blob seed record hp hs5 hsec (not_lt.mpr hm)⟩

/-- Witness for C2: the concrete blob `blobW` with seed `seedW`. -/
theorem claim_C2_derive_structure_witness :
    ∃ ct : List Nat,
      aes_encrypt_block ((run_hash_chain recW.secret
          ((255 - (seedW.getD 4 0 : Int) - (recW.min_seed : Int)).toNat)).take 16)
        (List.replicate 11 0xFF ++ seedW) = .ok ct ∧
      derive_key_from_blob blobW seedW 7 =
        .ok (ct.take 5, ((255 - (seedW.getD 4 0 : Int) - (recW.min_seed : Int)).toNat,
          (run_hash_chain recW.secret
            ((255 - (seedW.getD 4 0 : Int) - (recW.min_seed : Int)).toNat)).take 16)) :=
  claim_C2_derive_structure blobW seedW 7 recW (by decide) (by decide) (by decide) (by decide)

/-- C3: for a parsed record with matching algorithm id and a 5-byte seed,
derivation fails with `SeedRejected` exactly when `min_seed > 255 - seed[4]`,
and otherwise succeeds with `iterations = (255 - seed[4]) - min_seed`. -/
theorem claim_C3_seed_gate (blob : List Char) (seed : List Nat) (algo : Nat)
    (record : PasswordRecord)
    (hp : parse_password_blob blob = .ok record)
    (ha : algo = record.algo_id)
    (hs5 : seed.length = 5) :
    (derive_key_from_blob blob seed algo = .error .seedRejected ↔
      (record.min_seed : Int) > 255 - (seed.getD 4 0 : Nat)) ∧
    ((record.min_seed : Int) ≤ 255 - (seed.getD 4 0 : Nat) →
      ∃ mac aes_key : List Nat, derive_key_from_blob blob seed algo =
        .ok (mac, ((255 - (seed.getD 4 0 : Int) - (record.min_seed : Int)).toNat, aes_key))) := by
  subst ha
  have hsec := parse_ok_secret_length _ _ hp
  constructor
  · constructor
    · intro h
      by_contra hnot
      rw [derive_success blob seed record hp hs5 hsec hnot] at h
      exact absurd h (by simp)
    · intro hgt
      exact derive_seed_rejected blob seed record hp hs5 hgt
  · intro hle
    exact ⟨_, _, derive_success blob seed record hp hs5 hsec (not_lt.mpr hle)⟩

/-- Witness for C3: the concrete blob `blobW` with the rejecting seed `seedR`
(tail `0xFD`, so `max_seed = 2 < 3 = min_seed`). -/
theorem claim_C3_seed_gate_witness :
    (derive_key_from_blob blobW seedR 7 = .error .seedRejected ↔
      (recW.min_seed : Int) > 255 - (seedR.getD 4 0 : Nat)) ∧
    ((recW.min_seed : Int) ≤ 255 - (seedR.getD 4 0 : Nat) →
      ∃ mac aes_key : List Nat, derive_key_from_blob blobW seedR 7 =
        .ok (mac, ((255 - (seedR.getD 4 0 : Int) - (recW.min_seed : Int)).toNat, aes_key))) :=
  claim_C3_seed_gate blobW seedR 7 recW (by decide) (by decide) (by decide)

/-- C4: the hash chain satisfies `chain(s, 0) = s`, `chain(s, 1) = SHA-256(s)`
and `chain(s, n+1) = SHA-256(chain(s, n))`. -/
theorem claim_C4_chain_recurrence (secret : List Nat) (n : Nat) :
    run_hash_chain secret 0 = secret ∧
    run_hash_chain secret 1 = Sha256.sha256 secret ∧
    run_hash_chain secret (n + 1) = Sha256.sha256 (run_hash_chain secret n) :=
  ⟨rfl, rfl, rfl⟩

/-- C9: `derive_key_from_algo` is a pure function of `(algo, seed, registry)`:
two calls on identical inputs yield identical results (successes and failures
alike). -/
theorem claim_C9_deterministic (algo : Nat) (seed : List Nat)
    (reg : List (Nat × List Char)) :
    derive_key_from_algo algo seed reg = derive_key_from_algo algo seed reg := rfl

/-! ### Further helper lemmas (bit flips, error classification) -/

lemma take_of_set_ge {α : Type} (l : List α) (i n : Nat) (v : α) (h : n ≤ i) :
    (l.set i v).take n = l.take n := by
  apply List.ext_getElem
  · simp [List.length_take, List.length_set]
  · intro j h1 h2
    rw [List.getElem_take, List.getElem_take]
    have hj : j < n := by
      rw [List.length_take] at h2
      exact lt_of_lt_of_le h2 (min_le_left _ _)
    exact List.getElem_set_ne (by omega) _

lemma nat_xor_ne (a b : Nat) (hb : b ≠ 0) : a ^^^ b ≠ a := by
  intro h
  apply hb
  have h2 : a ^^^ (a ^^^ b) = a ^^^ a := by rw [h]
  rwa [← Nat.xor_assoc, Nat.xor_self, Nat.zero_xor] at h2

/-- Any error produced by `derive_key_from_blob` is a parse error, an
algorithm mismatch, a seed-length error, or a seed rejection — never one of
the internal AES invariant errors. -/
lemma derive_blob_error_cases (blob : List Char) (seed : List Nat) (algo : Nat)
    (e : KeyError) (h : derive_key_from_blob blob seed algo = .error e) :
    e = .blobTooShort ∨ e = .unsupportedPrefix ∨ e = .payloadLengthInvalid ∨
      e = .base64Invalid ∨ e = .decodedLengthInvalid ∨ e = .authenticityError ∨
      e = .algorithmMismatch ∨ e = .invalidSeedLength ∨ e = .seedRejected := by
  cases hp : parse_password_blob blob with
  | error e' =>
    rw [derive_parse_error _ seed algo _ hp] at h
    injection h with h
    subst h
    rcases parse_error_cases blob _ hp with h | h | h | h | h | h <;> subst h <;> tauto
  | ok record =>
    by_cases ha : algo = record.algo_id
    · subst ha
      by_cases hs : seed.length = 5
      · by_cases hm : (record.min_seed : Int) > 255 - (seed.getD 4 0 : Nat)
        · rw [derive_seed_rejected _ _ _ hp hs hm] at h
          injection h with h
          subst h
          tauto
        · rw [derive_success _ _ _ hp hs (parse_ok_secret_length _ _ hp) hm] at h
          exact absurd h (by simp)
      · rw [derive_bad_seed_length _ _ _ hp hs] at h
        injection h with h
        subst h
        tauto
    · rw [derive_algo_mismatch _ _ _ _ hp ha] at h
      injection h with h
      subst h
      tauto

lemma derive_blob_ne_unknown (blob : List Char) (seed : List Nat) (algo : Nat) :
    derive_key_from_blob blob seed algo ≠ .error .unknownAlgorithm := by
  intro h
  rcases derive_blob_error_cases blob seed algo _ h
    with h' | h' | h' | h' | h' | h' | h' | h' | h' <;> exact absurd h' (by decide)

/-- C5: under the length, prefix, Base64 and decoded-length checks, parse
fails with `AuthenticityError` iff the trailing 8 payload bytes differ from
the truncated SHA-256 of the first 36; consequently flipping any single bit in
those trailing bytes of a successfully parsed blob makes parse fail with
`AuthenticityError`. -/
theorem claim_C5_checksum_gate :
    (∀ (blob : List Char) (raw : List Nat),
      62 ≤ blob.length →
      (blob.take 2 = ['0', '1'] ∨ blob.take 2 = ['0', '3']) →
      (blob.drop 2).length = 60 →
      B64.decode (blob.drop 2) = some raw →
      raw.length = 44 →
      (parse_password_blob blob = .error .authenticityError ↔
        raw.drop 36 ≠ (Sha256.sha256 (raw.take 36)).take 8)) ∧
    (∀ (blob blob' : List Char) (raw : List Nat) (record : PasswordRecord) (i k : Nat),
      B64.decode (blob.drop 2) = some raw →
      parse_password_blob blob = .ok record →
      36 ≤ i → i < 44 → k < 8 →
      62 ≤ blob'.length →
      (blob'.take 2 = ['0', '1'] ∨ blob'.take 2 = ['0', '3']) →
      (blob'.drop 2).length = 60 →
      B64.decode (blob'.drop 2) = some (raw.set i ((raw.getD i 0) ^^^ 2 ^ k)) →
      parse_password_blob blob' = .error .authenticityError) := by
  constructor
  · intro blob raw hlen hpfx hpay hdec hraw
    rw [parse_checked blob raw hlen hpfx hpay hdec hraw]
    by_cases hc : (Sha256.sha256 (raw.take 36)).take 8 = raw.drop 36
    · rw [if_neg (not_not_intro hc)]
      constructor
      · intro h
        exact absurd h (by simp)
      · intro h
        exact absurd hc.symm h
    · rw [if_pos hc]
      exact ⟨fun _ hh => hc hh.symm, fun _ => rfl⟩
  · intro blob blob' raw record i k hdec hok h36 h44 hk8 hlen' hpfx' hpay' hdec'
    obtain ⟨raw2, hraw2, hdec2, -, hchk2⟩ := parse_ok_inv blob record hok
    have hr : raw2 = raw := by
      have h12 := hdec.symm.trans hdec2
      injection h12 with h12
      exact h12.symm
    subst hr
    have htake : (raw2.set i ((raw2.getD i 0) ^^^ 2 ^ k)).take 36 = raw2.take 36 :=
      take_of_set_ge raw2 i 36 _ h36
    have hne : (Sha256.sha256 ((raw2.set i ((raw2.getD i 0) ^^^ 2 ^ k)).take 36)).take 8 ≠
        (raw2.set i ((raw2.getD i 0) ^^^ 2 ^ k)).drop 36 := by
      rw [htake, hchk2]
      intro heq
      have heqfull : raw2.set i ((raw2.getD i 0) ^^^ 2 ^ k) = raw2 := by
        conv_lhs => rw [← List.take_append_drop 36 (raw2.set i ((raw2.getD i 0) ^^^ 2 ^ k))]
        rw [htake, ← heq, List.take_append_drop]
      have hv : (raw2.set i ((raw2.getD i 0) ^^^ 2 ^ k)).getD i 0 = (raw2.getD i 0) ^^^ 2 ^ k := by
        rw [List.getD_eq_getElem _ _ (by rw [List.length_set]; omega)]
        exact List.getElem_set_self _
      rw [heqfull] at hv
      exact nat_xor_ne (raw2.getD i 0) (2 ^ k) (by positivity) hv.symm
    rw [parse_checked blob' _ hlen' hpfx' hpay' hdec' (by rw [List.length_set]; exact hraw2)]
    rw [if_pos hne]


/-- Witness for C5: `blobW` parses (its checksum matches), and `blobF` — the
same payload with bit 0 of checksum byte 36 flipped — fails authentication. -/
theorem claim_C5_checksum_gate_witness :
    (parse_password_blob blobW = .error .authenticityError ↔
      rawW.drop 36 ≠ (Sha256.sha256 (rawW.take 36)).take 8) ∧
    parse_password_blob blobF = .error .authenticityError :=
  ⟨claim_C5_checksum_gate.1 blobW rawW (by decide) (by decide) (by decide) (by decide)
      (by decide),
   claim_C5_checksum_gate.2 blobW blobF rawW recW 36 0 (by decide) (by decide) (by decide)
      (by decide) (by decide) (by decide) (by decide) (by decide) (by decide)⟩

/-- C6 counterexample: `blobX` has 63 characters, a valid prefix, and its 60
characters after the prefix are valid Base64 decoding to a 44-byte payload
with a correct checksum, yet `parse_password_blob` rejects it (its payload
slice `blob[2:]` has 61 characters), contradicting the claim that every such
62-plus-character blob parses successfully. -/
theorem claim_C6_counterexample :
    62 ≤ blobX.length ∧ blobX.take 2 = ['0', '1'] ∧
    B64.decode ((blobX.drop 2).take 60) = some rawW ∧ rawW.length = 44 ∧
    rawW.drop 36 = (Sha256.sha256 (rawW.take 36)).take 8 ∧
    parse_password_blob blobX = .error .payloadLengthInvalid ∧
    (∀ record : PasswordRecord, parse_password_blob blobX ≠ .ok record) := by
  refine ⟨by decide, by decide, by decide, by decide, by decide, by decide, ?_⟩
  intro record h
  rw [show parse_password_blob blobX = .error .payloadLengthInvalid from by decide] at h
  exact absurd h (by simp)

/-- C6 (amended): parse rejects for length with `BlobTooShort` exactly when
the blob is shorter than 62 characters, but blobs longer than 62 characters
are also rejected (payload-length check); only blobs of exactly 62 characters
with a valid prefix, 60 valid Base64 characters decoding to 44 bytes, and a
correct checksum parse successfully. -/
theorem claim_C6_amended :
    (∀ blob : List Char, blob.length < 62 →
      parse_password_blob blob = .error .blobTooShort) ∧
    (∀ blob : List Char, 62 < blob.length →
      (blob.take 2 = ['0', '1'] ∨ blob.take 2 = ['0', '3']) →
      parse_password_blob blob = .error .payloadLengthInvalid) ∧
    (∀ (blob : List Char) (raw : List Nat), blob.length = 62 →
      (blob.take 2 = ['0', '1'] ∨ blob.take 2 = ['0', '3']) →
      B64.decode (blob.drop 2) = some raw → raw.length = 44 →
      raw.drop 36 = (Sha256.sha256 (raw.take 36)).take 8 →
      parse_password_blob blob =
        .ok ⟨raw.take 32, raw.getD 32 0 * 256 + raw.getD 33 0,
             raw.getD 34 0 * 256 + raw.getD 35 0⟩) := by
  refine ⟨?_, ?_, ?_⟩
  · intro blob h
    unfold parse_password_blob
    rw [if_pos h]
  · intro blob hlen hpfx
    unfold parse_password_blob
    rw [if_neg (by omega), if_neg (not_not_intro hpfx),
      if_pos (by rw [List.length_drop]; omega)]
  · intro blob raw hlen hpfx hdec hraw hchk
    rw [parse_checked blob raw (by omega) hpfx (by rw [List.length_drop]; omega) hdec hraw]
    rw [if_neg (not_not_intro hchk.symm)]

/-- Witness for the amended C6: a 1-character blob is too short, the 63-char
`blobX` fails the payload-length check, and the 62-char `blobW` parses. -/
theorem claim_C6_amended_witness :
    parse_password_blob ['0'] = .error .blobTooShort ∧
    parse_password_blob blobX = .error .payloadLengthInvalid ∧
    parse_password_blob blobW =
      .ok ⟨rawW.take 32, rawW.getD 32 0 * 256 + rawW.getD 33 0,
           rawW.getD 34 0 * 256 + rawW.getD 35 0⟩ :=
  ⟨claim_C6_amended.1 ['0'] (by decide),
   claim_C6_amended.2.1 blobX (by decide) (by decide),
   claim_C6_amended.2.2 blobW rawW (by decide) (by decide) (by decide) (by decide) (by decide)⟩

/-- C7 counterexample: an algorithm id that IS present in the registry but
mapped to the empty string still fails with `UnknownAlgorithm` (the source's
`if not blob` treats the empty string like a missing entry), contradicting
"fails with UnknownAlgorithm if and only if the id is absent". -/
theorem claim_C7_counterexample :
    (List.lookup 0 [(0, ([] : List Char))]).isSome = true ∧
    derive_key_from_algo 0 [1, 2, 3, 4, 5] [(0, [])] = .error .unknownAlgorithm :=
  ⟨rfl, rfl⟩

/-- C7 (amended): `derive_key_from_algo` fails with `UnknownAlgorithm` iff the
id is absent from the registry or registered as the empty string; for a
nonempty registered blob it delegates to the blob parsing and derivation
pipeline. -/
theorem claim_C7_amended (algo : Nat) (seed : List Nat) (reg : List (Nat × List Char)) :
    (derive_key_from_algo algo seed reg = .error .unknownAlgorithm ↔
      (reg.lookup algo = none ∨ reg.lookup algo = some [])) ∧
    (∀ b : List Char, reg.lookup algo = some b → b ≠ [] →
      derive_key_from_algo algo seed reg = derive_key_from_blob b seed algo) := by
  unfold derive_key_from_algo
  cases hl : reg.lookup algo with
  | none =>
    constructor
    · simp
    · intro b hb
      exact absurd hb (by simp)
  | some b =>
    by_cases hb : b = []
    · subst hb
      constructor
      · simp
      · intro b' hb' hne
        injection hb' with hb'
        exact absurd hb'.symm hne
    · simp only []
      rw [if_neg hb]
      constructor
      · constructor
        · intro h
          exact absurd h (derive_blob_ne_unknown b seed algo)
        · intro h
          rcases h with h | h
          · exact absurd h (by simp)
          · injection h with h
            exact absurd h hb
      · intro b' hb' hne
        injection hb' with hb'
        subst hb'
        rfl

/-- Witness for the amended C7: the singleton registry mapping `7` to `blobW`. -/
theorem claim_C7_amended_witness :
    (derive_key_from_algo 7 seedW [(7, blobW)] = .error .unknownAlgorithm ↔
      (List.lookup 7 [(7, blobW)] = none ∨ List.lookup 7 [(7, blobW)] = some [])) ∧
    derive_key_from_algo 7 seedW [(7, blobW)] = derive_key_from_blob blobW seedW 7 :=
  ⟨(claim_C7_amended 7 seedW [(7, blobW)]).1,
   (claim_C7_amended 7 seedW [(7, blobW)]).2 blobW (by decide) (by decide)⟩

/-- C8: neither `InvalidKeyLength` nor `InvalidBlockLength` is reachable from
the public entry points: internally the AES key is the 16-byte truncation of a
32-byte digest and the block is eleven `0xFF` bytes plus a 5-byte seed. -/
theorem claim_C8_internal_errors_unreachable (blob : List Char) (seed : List Nat)
    (algo : Nat) (reg : List (Nat × List Char)) :
    (derive_key_from_blob blob seed algo ≠ .error .invalidKeyLength ∧
     derive_key_from_blob blob seed algo ≠ .error .invalidBlockLength) ∧
    (derive_key_from_algo algo seed reg ≠ .error .invalidKeyLength ∧
     derive_key_from_algo algo seed reg ≠ .error .invalidBlockLength) := by
  have hblob : ∀ b : List Char,
      derive_key_from_blob b seed algo ≠ .error .invalidKeyLength ∧
      derive_key_from_blob b seed algo ≠ .error .invalidBlockLength := by
    intro b
    constructor
    · intro h
      rcases derive_blob_error_cases b seed algo _ h
        with h' | h' | h' | h' | h' | h' | h' | h' | h' <;> exact absurd h' (by decide)
    · intro h
      rcases derive_blob_error_cases b seed algo _ h
        with h' | h' | h' | h' | h' | h' | h' | h' | h' <;> exact absurd h' (by decide)
  refine ⟨hblob blob, ?_⟩
  unfold derive_key_from_algo
  cases hl : reg.lookup algo with
  | none => exact ⟨by simp, by simp⟩
  | some b =>
    by_cases hb : b = []
    · subst hb
      exact ⟨by simp, by simp⟩
    · simp only []
      rw [if_neg hb]
      exact hblob b

/-- C10: every successful derivation returns `iterations ≤ 255`, and the hash
chain applies SHA-256 exactly `iterations` times. -/
theorem claim_C10_iteration_bound :
    (∀ (blob : List Char) (seed : List Nat) (algo : Nat) (mac : List Nat)
        (iters : Nat) (key : List Nat),
      derive_key_from_blob blob seed algo = .ok (mac, iters, key) → iters ≤ 255) ∧
    (∀ (s : List Nat) (n : Nat), run_hash_chain s n = Sha256.sha256^[n] s) := by
  constructor
  · intro blob seed algo mac iters key h
    cases hp : parse_password_blob blob with
    | error e =>
      rw [derive_parse_error _ seed algo _ hp] at h
      exact absurd h (by simp)
    | ok record =>
      by_cases ha : algo = record.algo_id
      · subst ha
        by_cases hs : seed.length = 5
        · by_cases hm : (record.min_seed : Int) > 255 - (seed.getD 4 0 : Nat)
          · rw [derive_seed_rejected _ _ _ hp hs hm] at h
            exact absurd h (by simp)
          · rw [derive_success _ _ _ hp hs (parse_ok_secret_length _ _ hp) hm] at h
            injection h with h
            have h2 := congrArg (fun p => p.2.1) h
            simp only [] at h2
            omega
        · rw [derive_bad_seed_length _ _ _ hp hs] at h
          exact absurd h (by simp)
      · rw [derive_algo_mismatch _ _ _ _ hp ha] at h
        exact absurd h (by simp)
  · intro s n
    induction n with
    | zero => rfl
    | succ n ih => simp only [run_hash_chain, ih, Function.iterate_succ_apply']

/-- Witness for C10: the concrete derivation on `blobW`/`seedW` returns
`iterations = 0 ≤ 255`, and the chain on a sample input is an iterate. -/
theorem claim_C10_iteration_bound_witness :
    0 ≤ 255 ∧ run_hash_chain [1] 2 = Sha256.sha256^[2] [1] :=
  ⟨claim_C10_iteration_bound.1 blobW seedW 7 macW 0 keyW (by decide),
   claim_C10_iteration_bound.2 [1] 2⟩

end Keylib
